import Mathlib

/-!
Verification of the script-server core against its natural-language
specification.  The Python sources are shallowly embedded: pure functions
become Lean functions, dictionaries become association lists, process and
file-system effects become explicit oracle arguments, and exceptions become
`Except`.  Python dynamic values are modelled by the inductive `Value`
together with Python's equality (`pyEq`) and truthiness (`pyTruthy`).
-/

/-- A Python value as it can appear in a parameter-values map coming from a
JSON request body: strings, booleans, integers and `None`. -/
inductive Value where
  | str (s : String)
  | bool (b : Bool)
  | int (n : Int)
  | none
deriving DecidableEq, Repr

/-- Python `==` restricted to `Value`: booleans compare equal to the
integers 0/1 (`True == 1` holds in Python), strings only to equal strings,
`None` only to `None`; distinct kinds are otherwise unequal. -/
def pyEq : Value → Value → Bool
  | Value.str s, Value.str t => s == t
  | Value.bool a, Value.bool b => a == b
  | Value.bool a, Value.int n => (if a then (1 : Int) else 0) == n
  | Value.int n, Value.bool a => n == (if a then (1 : Int) else 0)
  | Value.int m, Value.int n => m == n
  | Value.none, Value.none => true
  | _, _ => false

/-- Python truthiness (`if value:`) on `Value`: `False`, `0`, `""` and
`None` are falsy, everything else is truthy. -/
def pyTruthy : Value → Bool
  | Value.str s => !(s == "")
  | Value.bool b => b
  | Value.int n => !(n == 0)
  | Value.none => false

/-- A Python dict from parameter names to values, as an association list;
`mapGet` is `d[k]` / `k in d`, `mapSet` is `d[k] = v` (update in place,
or append when the key is fresh). -/
def PValues : Type := List (String × Value)

instance : DecidableEq PValues := by
  unfold PValues
  infer_instance

/-- Dictionary lookup: first binding of the key, if any. -/
def mapGet (m : PValues) (k : String) : Option Value :=
  match m with
  | [] => Option.none
  | (k2, v) :: rest => if k2 == k then some v else mapGet rest k

/-- Dictionary assignment `d[k] = v`: overwrite the existing binding or
append a new one. -/
def mapSet (m : PValues) (k : String) (v : Value) : PValues :=
  match m with
  | [] => [(k, v)]
  | (k2, v2) :: rest => if k2 == k then (k2, v) :: rest else (k2, v2) :: mapSet rest k v

/-- One script parameter as used by `launcher.build_parameter_string`:
`name` (`get_name()` / `.name`), the CLI token `param` (`get_param()`,
possibly `None`), the flags `no_value` (`is_no_value()`) and `constant`
(`is_constant()`), and the config-declared `default` (`get_default()`). -/
structure Parameter where
  name : String
  param : Value
  no_value : Bool
  constant : Bool
  default : Value
deriving DecidableEq, Repr

/-- A script config as consumed by the command builder: its ordered
parameter list (`config.get_parameters()`). -/
structure ScriptConfig where
  parameters : List Parameter
deriving DecidableEq, Repr

/-- The body of the `for parameter in config.get_parameters()` loop of
`launcher.build_parameter_string` (src/launcher.py lines 224-242), acting on
the accumulator (result list so far, current state of the `param_values`
dict).  A constant parameter first writes its default into the dict; then,
if the name is bound, a no-value parameter appends its token when the value
`== True` or `== "true"`, and a value-taking parameter appends its token
(when truthy) and the value, when the value is truthy. -/
def processParameter (acc : List Value × PValues) (p : Parameter) : List Value × PValues :=
  let result := acc.1
  let vals0 := acc.2
  let vals := if p.constant then mapSet vals0 p.name p.default else vals0
  match mapGet vals p.name with
  | Option.none => (result, vals)
  | some value =>
    if p.no_value then
      if pyEq value (Value.bool true) || pyEq value (Value.str "true") then
        (result ++ [p.param], vals)
      else
        (result, vals)
    else
      if pyTruthy value then
        if pyTruthy p.param then
          (result ++ [p.param, value], vals)
        else
          (result ++ [value], vals)
      else
        (result, vals)

/-- `launcher.build_parameter_string(param_values, config)` together with the
final state of the (mutated) `param_values` dict: the loop above folded over
the config's parameters in declared order. -/
def build_parameter_string_run (param_values : PValues) (config : ScriptConfig) :
    List Value × PValues :=
  config.parameters.foldl processParameter ([], param_values)

/-- The return value of `launcher.build_parameter_string`: the argument
vector (the dict mutation is a side effect on the caller's map). -/
def build_parameter_string (param_values : PValues) (config : ScriptConfig) : List Value :=
  (build_parameter_string_run param_values config).1

/-- The `--verbose` / `--name` config of the end-to-end scenario: a flag-only
parameter named `verbose` with token `--verbose`, then a value-taking
parameter named `name` with token `--name` and default `"world"`. -/
def scenarioConfig : ScriptConfig :=
  ⟨[⟨"verbose", Value.str "--verbose", true, false, Value.bool false⟩,
    ⟨"name", Value.str "--name", false, false, Value.str "world"⟩]⟩

/-- The fixed contribution a constant parameter makes to the argument
vector, computed from the config alone: its freshly-written default drives
the flag / value branches of the loop body. -/
def constContribution (p : Parameter) : List Value :=
  if p.no_value then
    if pyEq p.default (Value.bool true) || pyEq p.default (Value.str "true") then
      [p.param]
    else []
  else
    if pyTruthy p.default then
      if pyTruthy p.param then [p.param, p.default] else [p.default]
    else []

/-- The OS-level error attached to a Python exception: `e.strerror`, absent
or possibly empty. -/
structure PyError where
  strerror : Option String
deriving DecidableEq, Repr

/-- One configured alert destination: an identifier plus whether its
`send` raises (the exception is caught per destination in `send_alerts`). -/
structure Destination where
  id : Nat
  failing : Bool
deriving DecidableEq, Repr

/-- The server's alerts configuration: its `get_destinations()` list. -/
structure AlertsConfig where
  destinations : List Destination
deriving DecidableEq, Repr

/-- A record of one `destination.send(title, body, logs)` invocation made by
`send_alerts`, with whether it completed or raised (and was logged). -/
structure SendCall where
  dest : Nat
  title : String
  body : String
  logs : Option String
  delivered : Bool
deriving DecidableEq, Repr

/-- `server.send_alerts(alerts_config, title, body, logs)`
(src/src/server.py lines 535-547): returns the sequence of `send`
invocations its `_send` loop performs.  Nothing happens without a config or
without destinations; otherwise every destination is attempted in order,
each `send` wrapped in its own try/except, so a raising destination is
logged and the loop continues. -/
def send_alerts (alertsConfig : Option AlertsConfig) (title body : String)
    (logs : Option String) : List SendCall :=
  match alertsConfig with
  | Option.none => []
  | some cfg =>
    if cfg.destinations.isEmpty then []
    else cfg.destinations.map (fun d => ⟨d.id, title, body, logs, !d.failing⟩)

/-- The parsed execution request (`external_model.to_execution_info`): the
script name it asks to run. -/
structure ExecutionInfo where
  script : String
deriving DecidableEq, Repr

/-- The environment of one `ScriptExecute.post` call: the outcome of each
external step the handler performs (request parsing, `load_config`,
`model_helper.validate_parameters`, `executor.start()`), plus the
application's alerts config. -/
structure ExecuteEnv where
  parseResult : Except PyError ExecutionInfo
  configFound : Bool
  validParams : Bool
  startResult : Except PyError Nat
  alertsConfig : Option AlertsConfig
deriving Repr

/-- The error text the `except` branch of `ScriptExecute.post` extracts from
the exception: `e.strerror` when present and truthy, else the generic
message. -/
def errorOutputOf (e : PyError) : String :=
  match e.strerror with
  | some s => if s == "" then "Unknown error occurred, contact the administrator" else s
  | Option.none => "Unknown error occurred, contact the administrator"

/-- An HTTP response written by the handler: normal body, or
`respond_error(status, message)`. -/
inductive Response where
  | ok (body : String)
  | error (status : Nat) (body : String)
deriving DecidableEq, Repr

/-- One registered running script (the `ScriptExecutor` stored in
`running_scripts`), tracking whether `stop()` has been invoked on it. -/
structure RunningScript where
  stopped : Bool
deriving DecidableEq, Repr

/-- The process-wide `running_scripts` dict, keyed by process id. -/
def Registry : Type := List (Nat × RunningScript)

instance : DecidableEq Registry := by
  unfold Registry
  infer_instance

/-- Dict assignment `running_scripts[process_id] = executor`. -/
def registrySet (registry : Registry) (pid : Nat) (v : RunningScript) : Registry :=
  match registry with
  | [] => [(pid, v)]
  | (k, v2) :: rest => if k == pid then (k, v) :: rest else (k, v2) :: registrySet rest pid v

/-- `server.ScriptExecute.post` (src/src/server.py lines 411-487) as a
function of its environment, the audit name and the `running_scripts`
registry, returning the new registry, the HTTP response, and the `send`
invocations of any `send_alerts` call it makes.  On any exception (parse or
start), the `except` branch composes `" ---  ERRORS  --- \n"` plus the
exception's `strerror` (or a generic message), sends a NOT STARTED alert and
responds 500 — without touching the registry, which is only assigned after
`executor.start()` returns a process id. -/
def scriptExecutePost (env : ExecuteEnv) (auditName : String) (registry : Registry) :
    Registry × Response × List SendCall :=
  match env.parseResult with
  | Except.error e =>
    let result := " ---  ERRORS  --- \n" ++ errorOutputOf e
    let script := "Some script"
    (registry, Response.error 500 result,
      send_alerts env.alertsConfig (script ++ " NOT STARTED")
        ("Couldn't start the script " ++ script ++ " by " ++ auditName ++ ".\n\n" ++ result)
        Option.none)
  | Except.ok info =>
    if !env.configFound then
      (registry, Response.error 400 ("Script with name \"" ++ info.script ++ "\" not found"), [])
    else if !env.validParams then
      (registry, Response.error 400 "Received invalid parameters", [])
    else
      match env.startResult with
      | Except.ok pid =>
        (registrySet registry pid ⟨false⟩, Response.ok (toString pid), [])
      | Except.error e =>
        let result := " ---  ERRORS  --- \n" ++ errorOutputOf e
        let script := if info.script == "" then "Some script" else info.script
        (registry, Response.error 500 result,
          send_alerts env.alertsConfig (script ++ " NOT STARTED")
            ("Couldn't start the script " ++ script ++ " by " ++ auditName ++ ".\n\n" ++ result)
            Option.none)

/-- The `Alerter.finished` listener installed by
`ScriptExecute.subscribe_fail_alerter` (src/src/server.py lines 489-515):
given the executor's return code and the old data of the secure (redacted)
output stream, the `send_alerts(alerts_config, title, body, script_output)`
payload it dispatches, or `none` when the return code is zero. -/
def alerterFinished (scriptName auditName : String) (returnCode : Int)
    (secureOutputData : List String) : Option (String × String × String) :=
  if returnCode != 0 then
    some (scriptName ++ " FAILED",
      "The script \"" ++ scriptName ++ "\", started by " ++ auditName ++
        " exited with return code " ++ toString returnCode ++ "." ++
        " Usually this means an error, occurred during the execution." ++
        " Please check the corresponding logs",
      String.join secureOutputData)
  else Option.none

/-- `server.stop_script(process_id)` (src/src/server.py lines 324-326):
call `.stop()` on the registered executor when the id is present, do
nothing otherwise. -/
def stop_script (registry : Registry) (processId : Nat) : Registry :=
  if (registry.lookup processId).isSome then
    registry.map (fun entry => if entry.1 == processId then (entry.1, ⟨true⟩) else entry)
  else registry

/-- A parameter as seen by `ConfigService.get_parameter_values`: its name,
its dependency list (`get_required_parameters()`), and its allowed-values
computation (`get_values(...)`, defined in the external `script_configs`
model, so kept abstract as a function of the passed values). -/
structure ParamFull where
  name : String
  requiredParameters : List String
  getValues : PValues → List Value

/-- A loaded script config: its name and ordered parameter list. -/
structure FullConfig where
  name : String
  parameters : List ParamFull

/-- Modelled from the spec: `script_config.find_parameter(name)` lives in
the external `script_configs` model; the spec describes a config as holding
an ordered list of parameters, so lookup is the first parameter with the
given name. -/
def find_parameter (config : FullConfig) (paramName : String) : Option ParamFull :=
  config.parameters.find? (fun p => p.name == paramName)

/-- The exceptions `ConfigService.get_parameter_values` can raise. -/
inductive ConfigServiceError where
  | configNotFound (scriptName : String)
  | parameterNotFound (paramName scriptName : String)
  | missingRequiredParameter (requiredName scriptName : String)
  | invalidValue (paramName validationError scriptName : String)
deriving DecidableEq, Repr

/-- `ConfigService._get_cached_config`: the cache consulted first, then
`load_config` (file-system access, modelled by the `loader` oracle). -/
def getCachedConfig (cached : List (String × FullConfig))
    (loader : String → Option FullConfig) (scriptName : String) : Option FullConfig :=
  match cached.lookup scriptName with
  | some c => some c
  | Option.none => loader scriptName

/-- The `for required_parameter_name in required_parameters` loop of
`get_parameter_values` (src/src/config/config_service.py lines 106-114):
stops at the first missing dependency or the first dependency for which
`model_helper.validate_parameter` (external, passed as the `validate`
oracle) reports an error. -/
def checkRequiredParameters (config : FullConfig) (paramName scriptName : String)
    (validate : ParamFull → PValues → Option String) (currentValues : PValues) :
    List String → Option ConfigServiceError
  | [] => Option.none
  | requiredName :: rest =>
    match find_parameter config requiredName with
    | Option.none =>
      some (ConfigServiceError.missingRequiredParameter requiredName scriptName)
    | some requiredParam =>
      match validate requiredParam currentValues with
      | some err => some (ConfigServiceError.invalidValue paramName err scriptName)
      | Option.none =>
        checkRequiredParameters config paramName scriptName validate currentValues rest

/-- `ConfigService.get_parameter_values(script_name, param_name,
current_values, user)` (src/src/config/config_service.py lines 88-116):
resolve the config and the parameter, then either compute the parameter's
values from an empty values list (no dependencies) or validate every
dependency against the current values before computing from them. -/
def get_parameter_values (cached : List (String × FullConfig))
    (loader : String → Option FullConfig)
    (validate : ParamFull → PValues → Option String)
    (scriptName paramName : String) (currentValues : PValues) :
    Except ConfigServiceError (List Value) :=
  match getCachedConfig cached loader scriptName with
  | Option.none => Except.error (ConfigServiceError.configNotFound scriptName)
  | some config =>
    match config.parameters.find? (fun p => p.name == paramName) with
    | Option.none => Except.error (ConfigServiceError.parameterNotFound paramName scriptName)
    | some foundParameter =>
      if foundParameter.requiredParameters.isEmpty then
        Except.ok (foundParameter.getValues [])
      else
        match checkRequiredParameters config paramName scriptName validate currentValues
            foundParameter.requiredParameters with
        | some e => Except.error e
        | Option.none => Except.ok (foundParameter.getValues currentValues)

/-- The outcome of `subprocess.Popen(...).communicate()` for one command:
return code and the UTF-8-decoded standard output and error. -/
structure ProcessResult where
  returncode : Int
  stdout : String
  stderr : String
deriving DecidableEq, Repr

/-- `process_utils.invoke(command)` (src/src/utils/process_utils.py lines
9-37) for a list command, with process execution supplied by the `run`
oracle: returns the decoded standard output on exit code 0 and raises an
`Exception` naming the exit code otherwise (the `print` diagnostics carry no
result and are dropped). -/
def invoke (run : List String → ProcessResult) (command : List String) :
    Except String String :=
  let p := run command
  let output := p.stdout
  if p.returncode != 0 then
    Except.error ("Execution failed with exit code " ++ toString p.returncode)
  else
    Except.ok output

/-- A dependency parameter used by the C9 witness: no dependencies of its
own, fixed values. -/
def depParamW : ParamFull := ⟨"dep", [], fun _ => [Value.str "a"]⟩

/-- The parameter queried by the C9 witness: depends on `dep`, computes its
values as the supplied values in order. -/
def mainParamW : ParamFull := ⟨"p", ["dep"], fun vals => vals.map Prod.snd⟩

/-- The config of the C9 witness. -/
def configW : FullConfig := ⟨"scr", [depParamW, mainParamW]⟩

/-- A concrete validator for the C9 witness: a parameter validates iff the
values dict binds its name. -/
def validateW : ParamFull → PValues → Option String :=
  fun rp vals => if (mapGet vals rp.name).isSome then Option.none else some "value missing"

/-- Dictionary law: reading a key right after writing it yields the written
value. -/
theorem mapGet_mapSet_self (m : PValues) (k : String) (v : Value) :
    mapGet (mapSet m k v) k = some v := by
  induction m with
  | nil => simp [mapSet, mapGet]
  | cons hd tl ih =>
    obtain ⟨k2, v2⟩ := hd
    by_cases hk : k2 = k
    · simp [mapSet, mapGet, hk]
    · simp [mapSet, mapGet, hk, ih]

/-- C1 (counterexample): with supplied values exactly `(verbose := true)`,
`build_parameter_string` does NOT return
`["--verbose", "--name", "world"]` — the default of the non-constant `name`
parameter is never injected into the vector. -/
theorem scenario_vector_not_as_claimed :
    build_parameter_string [("verbose", Value.bool true)] scenarioConfig ≠
      [Value.str "--verbose", Value.str "--name", Value.str "world"] := by
  decide

/-- C1 (amended): with supplied values `(verbose := true)` the argument
vector is exactly `["--verbose"]`: the `name` parameter is not constant and
not supplied, so it contributes nothing; its default is not applied by
`build_parameter_string`. -/
theorem scenario_vector_is_verbose_only :
    build_parameter_string [("verbose", Value.bool true)] scenarioConfig =
      [Value.str "--verbose"] := by
  decide

set_option linter.unnecessarySeqFocus false in
/-- A parameter processed by the loop body does not change the values dict
unless it is constant. -/
theorem processParameter_snd_of_not_constant (res : List Value) (vals : PValues)
    (p : Parameter) (h : p.constant = false) :
    (processParameter (res, vals) p).2 = vals := by
  unfold processParameter
  simp only [h, Bool.false_eq_true, if_false]
  cases mapGet vals p.name with
  | none => rfl
  | some value =>
    by_cases hnv : p.no_value = true <;>
      simp [hnv] <;> split <;> simp_all <;> split <;> simp_all

/-- C2 (counterexample): `build_parameter_string` is not side-effect-free:
called on an empty values dict with a config holding one constant parameter
`c` (default `"x"`), it leaves the caller's dict changed to `[(c, "x")]`. -/
theorem build_parameter_string_mutates_values :
    (build_parameter_string_run []
        ⟨[⟨"c", Value.str "--c", false, true, Value.str "x"⟩]⟩).2 =
        [("c", Value.str "x")] ∧
      ([("c", Value.str "x")] : PValues) ≠ [] := by
  constructor
  · decide
  · decide

/-- C2 (amended): `build_parameter_string` is deterministic (it is a pure
function of the supplied dict and config in this embedding), and it leaves
the supplied parameter-values map unchanged whenever the config declares no
constant parameter; a constant parameter's default is written into the
caller's map. -/
theorem build_parameter_string_preserves_values (pv : PValues) (config : ScriptConfig)
    (h : ∀ p ∈ config.parameters, p.constant = false) :
    (build_parameter_string_run pv config).2 = pv := by
  unfold build_parameter_string_run
  suffices hgen : ∀ (ps : List Parameter), (∀ p ∈ ps, p.constant = false) →
      ∀ acc : List Value × PValues, (ps.foldl processParameter acc).2 = acc.2 by
    exact hgen config.parameters h ([], pv)
  intro ps
  induction ps with
  | nil => intro _ acc; rfl
  | cons p rest ih =>
    intro hall acc
    rw [List.foldl_cons]
    rw [ih (fun q hq => hall q (List.mem_cons_of_mem p hq)) (processParameter acc p)]
    exact processParameter_snd_of_not_constant acc.1 acc.2 p (hall p (List.mem_cons_self p rest))

/-- C2 (witness): concrete instance of the amended claim at a config with a
single non-constant parameter. -/
theorem build_parameter_string_preserves_values_witness :
    (build_parameter_string_run [("verbose", Value.bool true)] scenarioConfig).2 =
      [("verbose", Value.bool true)] := by
  apply build_parameter_string_preserves_values
  decide

/-- C3 (counterexample): a flag-only parameter with supplied value `1`
(neither boolean `true` nor the string `"true"`) still contributes its
token, because Python evaluates `1 == True` to `True`. -/
theorem flag_parameter_int_one_contributes :
    build_parameter_string [("v", Value.int 1)]
        ⟨[⟨"v", Value.str "--verbose", true, false, Value.bool false⟩]⟩ =
        [Value.str "--verbose"] ∧
      Value.int 1 ≠ Value.bool true ∧ Value.int 1 ≠ Value.str "true" := by
  refine ⟨?_, ?_, ?_⟩ <;> decide

/-- Python equality against `True` or the string `"true"`, characterised:
on this value domain it holds exactly for `True`, `"true"` and `1`. -/
theorem pyEq_true_or_strtrue_iff (v : Value) :
    (pyEq v (Value.bool true) || pyEq v (Value.str "true")) = true ↔
      v = Value.bool true ∨ v = Value.str "true" ∨ v = Value.int 1 := by
  cases v with
  | str s =>
    simp only [pyEq, Bool.false_or, beq_iff_eq]
    constructor
    · intro h; exact Or.inr (Or.inl (by rw [h]))
    · rintro (h | h | h) <;> simp_all
  | bool b => cases b <;> simp [pyEq]
  | int n =>
    simp only [pyEq, Bool.or_false, beq_iff_eq, if_true, eq_self_iff_true, if_pos]
    constructor
    · intro h; exact Or.inr (Or.inr (by rw [h]))
    · rintro (h | h | h) <;> simp_all
  | none => simp [pyEq]

/-- C3 (amended): for a non-constant flag-only parameter whose name is bound
to `v` in the dict, the loop body appends exactly the parameter's CLI token
iff `v` is boolean true, the string `"true"`, or the integer `1` (Python's
`==` equates `True` with `1`); otherwise it appends nothing; the dict is
unchanged. -/
theorem flag_parameter_token_iff (res : List Value) (vals : PValues) (p : Parameter)
    (v : Value) (hnv : p.no_value = true) (hc : p.constant = false)
    (hv : mapGet vals p.name = some v) :
    processParameter (res, vals) p =
      (if v = Value.bool true ∨ v = Value.str "true" ∨ v = Value.int 1
        then res ++ [p.param] else res, vals) := by
  unfold processParameter
  simp only [hc, Bool.false_eq_true, if_false, hv, hnv, if_true]
  by_cases hcond : v = Value.bool true ∨ v = Value.str "true" ∨ v = Value.int 1
  · rw [if_pos ((pyEq_true_or_strtrue_iff v).mpr hcond), if_pos hcond]
  · rw [if_neg (fun habs => hcond ((pyEq_true_or_strtrue_iff v).mp habs)), if_neg hcond]

/-- C3 (witness): the amended claim at a concrete flag parameter, dict and
value (`"false"`, which contributes nothing). -/
theorem flag_parameter_token_iff_witness :
    processParameter ([], [("v", Value.str "false")])
        ⟨"v", Value.str "--verbose", true, false, Value.bool false⟩ =
      ([], [("v", Value.str "false")]) := by
  have h := flag_parameter_token_iff []
    [("v", Value.str "false")]
    ⟨"v", Value.str "--verbose", true, false, Value.bool false⟩
    (Value.str "false") rfl rfl rfl
  simpa using h

/-- C4: a constant parameter's effect is independent of the supplied values
dict: the loop body appends `constContribution p` — whose value element,
when present, is literally the config-declared default — and overwrites the
dict entry with that default, whatever the caller supplied. -/
theorem constant_parameter_contribution (res : List Value) (vals : PValues)
    (p : Parameter) (h : p.constant = true) :
    processParameter (res, vals) p =
      (res ++ constContribution p, mapSet vals p.name p.default) := by
  unfold processParameter constContribution
  simp only [h, if_true, mapGet_mapSet_self]
  by_cases hnv : p.no_value = true
  · simp only [hnv, if_true]
    split
    · rfl
    · simp
  · simp only [hnv, Bool.not_eq_true] at *
    simp only [hnv, Bool.false_eq_true, if_false]
    split
    · split
      · rfl
      · rfl
    · simp

/-- C4 (witness): a constant parameter (default `"x"`, token `--c`)
contributes `["--c", "x"]` even when the caller supplied a different
value for it. -/
theorem constant_parameter_contribution_witness :
    processParameter ([], [("c", Value.str "attacker")])
        ⟨"c", Value.str "--c", false, true, Value.str "x"⟩ =
      ([Value.str "--c", Value.str "x"], [("c", Value.str "x")]) := by
  have h := constant_parameter_contribution []
    [("c", Value.str "attacker")]
    ⟨"c", Value.str "--c", false, true, Value.str "x"⟩ rfl
  simpa using h

/-- C5: when `executor.start()` raises, `ScriptExecute.post` leaves the
`running_scripts` registry unchanged and responds with a 500 error whose
body is the errors header followed by the exception's OS-level `strerror`
when the exception carries a non-empty one. -/
theorem launch_failure_registers_nothing (env : ExecuteEnv) (auditName : String)
    (registry : Registry) (info : ExecutionInfo) (e : PyError) (s : String)
    (hparse : env.parseResult = Except.ok info)
    (hcfg : env.configFound = true)
    (hvalid : env.validParams = true)
    (hstart : env.startResult = Except.error e)
    (hstr : e.strerror = some s) (hne : s ≠ "") :
    (scriptExecutePost env auditName registry).1 = registry ∧
      (scriptExecutePost env auditName registry).2.1 =
        Response.error 500 (" ---  ERRORS  --- \n" ++ s) := by
  unfold scriptExecutePost
  rw [hparse, hcfg, hvalid, hstart]
  simp [errorOutputOf, hstr, hne]

/-- C5 (witness): a concrete failed launch (strerror `"No such file or
directory"`) with a nonempty registry: nothing is registered and the body
carries the strerror. -/
theorem launch_failure_registers_nothing_witness :
    (scriptExecutePost
        ⟨Except.ok ⟨"my_script"⟩, true, true,
          Except.error ⟨some "No such file or directory"⟩, Option.none⟩
        "admin" [(7, ⟨false⟩)]).1 = [(7, ⟨false⟩)] ∧
      (scriptExecutePost
        ⟨Except.ok ⟨"my_script"⟩, true, true,
          Except.error ⟨some "No such file or directory"⟩, Option.none⟩
        "admin" [(7, ⟨false⟩)]).2.1 =
        Response.error 500 (" ---  ERRORS  --- \nNo such file or directory") := by
  exact launch_failure_registers_nothing
    ⟨Except.ok ⟨"my_script"⟩, true, true,
      Except.error ⟨some "No such file or directory"⟩, Option.none⟩
    "admin" [(7, ⟨false⟩)] ⟨"my_script"⟩ ⟨some "No such file or directory"⟩
    "No such file or directory" rfl rfl rfl rfl rfl (by decide)

/-- C6: the finish-listener alerter dispatches iff the return code is
non-zero, and the dispatched payload's title names the script, its body
names the script, the audit name and the return code, and its logs are the
joined data of the secure output stream. -/
theorem alerter_fires_iff_nonzero (scriptName auditName : String) (rc : Int)
    (chunks : List String) :
    (alerterFinished scriptName auditName rc chunks = Option.none ↔ rc = 0) ∧
      (∀ title body logs,
        alerterFinished scriptName auditName rc chunks = some (title, body, logs) →
          title = scriptName ++ " FAILED" ∧
          body = "The script \"" ++ scriptName ++ "\", started by " ++ auditName ++
            " exited with return code " ++ toString rc ++ "." ++
            " Usually this means an error, occurred during the execution." ++
            " Please check the corresponding logs" ∧
          logs = String.join chunks) := by
  unfold alerterFinished
  by_cases h : rc = 0
  · simp [h]
  · simp only [h, bne_iff_ne, ne_eq, not_false_eq_true, if_true, iff_false]
    constructor
    · simp [h]
    · intro title body logs heq
      simp only [Option.some_inj, Prod.mk.injEq] at heq
      obtain ⟨h1, h2, h3⟩ := heq
      exact ⟨h1.symm, h2.symm, h3.symm⟩

/-- C6 (witness): exit code 2 produces an alert whose logs are the joined
secure output; exit code 0 produces none. -/
theorem alerter_fires_iff_nonzero_witness :
    (alerterFinished "backup" "admin" 2 ["out1", "out2"] ≠ Option.none) ∧
      (alerterFinished "backup" "admin" 0 ["out1", "out2"] = Option.none) := by
  constructor
  · intro habs
    have h := (alerter_fires_iff_nonzero "backup" "admin" 2 ["out1", "out2"]).1.mp habs
    exact absurd h (by decide)
  · exact (alerter_fires_iff_nonzero "backup" "admin" 0 ["out1", "out2"]).1.mpr rfl

/-- C7: `send_alerts` performs exactly one `send(title, body, logs)` call
per configured destination, in order, with the same payload — independently
of which destinations raise (each `send` is wrapped in its own try/except,
so a failing destination never suppresses the calls to the others). -/
theorem send_alerts_one_call_per_destination (cfg : AlertsConfig) (title body : String)
    (logs : Option String) :
    (send_alerts (some cfg) title body logs).map (fun c => (c.dest, c.title, c.body, c.logs)) =
      cfg.destinations.map (fun d => (d.id, title, body, logs)) := by
  by_cases h : cfg.destinations.isEmpty = true
  · have h2 : cfg.destinations = [] := List.isEmpty_iff.mp h
    simp [send_alerts, h2]
  · simp [send_alerts, h, List.map_map, Function.comp]

/-- C8: `stop_script` is a no-op on every process id absent from the
`running_scripts` registry: the registry is returned unchanged (and the
function returns normally, never raising). -/
theorem stop_script_noop_when_absent (registry : Registry) (pid : Nat)
    (h : registry.lookup pid = Option.none) :
    stop_script registry pid = registry := by
  unfold stop_script
  rw [h]
  rfl

/-- C8 (witness): stopping id 2 on a registry holding only id 1 changes
nothing. -/
theorem stop_script_noop_when_absent_witness :
    stop_script [(1, ⟨false⟩)] 2 = [(1, ⟨false⟩)] := by
  exact stop_script_noop_when_absent [(1, ⟨false⟩)] 2 (by decide)

/-- The dependency-validation loop reports nothing when every required
parameter exists and validates cleanly. -/
theorem checkRequiredParameters_none (config : FullConfig) (paramName scriptName : String)
    (validate : ParamFull → PValues → Option String) (currentValues : PValues)
    (rs : List String)
    (h : ∀ r ∈ rs, ∃ rp, find_parameter config r = some rp ∧
        validate rp currentValues = Option.none) :
    checkRequiredParameters config paramName scriptName validate currentValues rs =
      Option.none := by
  induction rs with
  | nil => rfl
  | cons r rest ih =>
    obtain ⟨rp, hfind, hval⟩ := h r (List.mem_cons_self r rest)
    simp only [checkRequiredParameters, hfind, hval]
    exact ih (fun q hq => h q (List.mem_cons_of_mem r hq))

/-- The dependency-validation loop stops at the first dependency whose
validation fails, reporting an invalid-value error for it. -/
theorem checkRequiredParameters_first_failure (config : FullConfig)
    (paramName scriptName : String) (validate : ParamFull → PValues → Option String)
    (currentValues : PValues) (pre : List String) (r : String) (post : List String)
    (rp : ParamFull) (err : String)
    (hpre : ∀ q ∈ pre, ∃ qp, find_parameter config q = some qp ∧
        validate qp currentValues = Option.none)
    (hfind : find_parameter config r = some rp)
    (hval : validate rp currentValues = some err) :
    checkRequiredParameters config paramName scriptName validate currentValues
        (pre ++ r :: post) =
      some (ConfigServiceError.invalidValue paramName err scriptName) := by
  induction pre with
  | nil =>
    simp only [List.nil_append, checkRequiredParameters, hfind, hval]
  | cons q rest ih =>
    obtain ⟨qp, hq1, hq2⟩ := hpre q (List.mem_cons_self q rest)
    simp only [List.cons_append, checkRequiredParameters, hq1, hq2]
    exact ih (fun x hx => hpre x (List.mem_cons_of_mem q hx))

/-- C9: `get_parameter_values`, once the config and the parameter are
resolved: with no dependencies it computes the parameter's values from an
empty values list; with dependencies it returns the values computed from
the current values when every dependency exists and validates, and raises
`InvalidValueException` carrying the first failing dependency's validation
error otherwise. -/
theorem get_parameter_values_spec (cached : List (String × FullConfig))
    (loader : String → Option FullConfig)
    (validate : ParamFull → PValues → Option String)
    (scriptName paramName : String) (currentValues : PValues)
    (config : FullConfig) (found : ParamFull)
    (hcfg : getCachedConfig cached loader scriptName = some config)
    (hfind : config.parameters.find? (fun p => p.name == paramName) = some found) :
    (found.requiredParameters = [] →
      get_parameter_values cached loader validate scriptName paramName currentValues =
        Except.ok (found.getValues [])) ∧
    (found.requiredParameters ≠ [] →
      (∀ r ∈ found.requiredParameters, ∃ rp, find_parameter config r = some rp ∧
          validate rp currentValues = Option.none) →
      get_parameter_values cached loader validate scriptName paramName currentValues =
        Except.ok (found.getValues currentValues)) ∧
    (∀ pre r post rp err, found.requiredParameters = pre ++ r :: post →
      (∀ q ∈ pre, ∃ qp, find_parameter config q = some qp ∧
          validate qp currentValues = Option.none) →
      find_parameter config r = some rp →
      validate rp currentValues = some err →
      get_parameter_values cached loader validate scriptName paramName currentValues =
        Except.error (ConfigServiceError.invalidValue paramName err scriptName)) := by
  refine ⟨?_, ?_, ?_⟩
  · intro h
    simp only [get_parameter_values, hcfg, hfind, h, List.isEmpty_nil, if_true]
  · intro hne hall
    have hcheck := checkRequiredParameters_none config paramName scriptName validate
      currentValues found.requiredParameters hall
    have hie : found.requiredParameters.isEmpty = false := by
      cases hreq : found.requiredParameters with
      | nil => exact absurd hreq hne
      | cons a b => rfl
    simp only [get_parameter_values, hcfg, hfind, hie, Bool.false_eq_true, if_false, hcheck]
  · intro pre r post rp err hsplit hpre hfr hval
    have hcheck := checkRequiredParameters_first_failure config paramName scriptName
      validate currentValues pre r post rp err hpre hfr hval
    have hie : (pre ++ r :: post).isEmpty = false := by
      cases pre <;> rfl
    simp only [get_parameter_values, hcfg, hfind, hsplit, hie, Bool.false_eq_true,
      if_false, hcheck]

/-- C9 (witness): the dependency `dep` is supplied and validates, so the
query for `p` returns its values computed from the current values. -/
theorem get_parameter_values_spec_witness :
    get_parameter_values [("scr", configW)] (fun _ => Option.none) validateW "scr" "p"
        [("dep", Value.str "a")] = Except.ok [Value.str "a"] := by
  have h := (get_parameter_values_spec [("scr", configW)] (fun _ => Option.none) validateW
      "scr" "p" [("dep", Value.str "a")] configW mainParamW rfl rfl).2.1
  have h2 := h (by simp [mainParamW]) ?_
  · simpa [mainParamW] using h2
  · intro r hr
    simp only [mainParamW, List.mem_singleton] at hr
    subst hr
    exact ⟨depParamW, rfl, rfl⟩

/-- C10: `invoke` returns exactly the command's decoded standard output when
the process exits with code 0, and raises an exception whose message names
the exit code whenever the code is non-zero — a non-zero exit is never a
normal return. -/
theorem invoke_ok_iff_zero_exit (run : List String → ProcessResult)
    (command : List String) :
    (∀ s, invoke run command = Except.ok s →
      (run command).returncode = 0 ∧ s = (run command).stdout) ∧
    ((run command).returncode = 0 →
      invoke run command = Except.ok (run command).stdout) ∧
    ((run command).returncode ≠ 0 →
      invoke run command =
        Except.error ("Execution failed with exit code " ++
          toString (run command).returncode)) := by
  unfold invoke
  by_cases h : (run command).returncode = 0
  · simp [h]
  · simp [h]

/-- C10 (witness): a zero-exit run returns its output; an exit-code-2 run
raises with the code in the message. -/
theorem invoke_ok_iff_zero_exit_witness :
    invoke (fun _ => ⟨0, "hello world\n", ""⟩) ["echo"] = Except.ok "hello world\n" ∧
      invoke (fun _ => ⟨2, "", "boom"⟩) ["failing"] =
        Except.error "Execution failed with exit code 2" := by
  constructor
  · exact (invoke_ok_iff_zero_exit (fun _ => ⟨0, "hello world\n", ""⟩) ["echo"]).2.1 rfl
  · have h := (invoke_ok_iff_zero_exit (fun _ => ⟨2, "", "boom"⟩) ["failing"]).2.2
      (by decide)
    simpa using h
